import Mathlib

/-
Verification development for the Alert Monitoring Engine of the dogsight
application (src/app/main.js).  The engine's state lives in the module-level
`alertMonitor` object; the operations are `isPointInPolygon`,
`isDogInSafeZone`, `startAlertMonitoring` (including its periodic interval
callback, embedded here as `alertCheckTick`), `stopAlertMonitoring` and
`processDetectionForAlert`.  Times are JavaScript millisecond timestamps,
embedded as `Int`; nullable timestamp fields are `Option Int` (JavaScript
`null`/`undefined` is `none`, and the source's truthiness tests `!x` are
embedded by `falsyO`, which also treats the number 0 as falsy, exactly as
JavaScript does).  Numeric detection fields (confidence, area, hit counts,
bounding boxes) are embedded as rationals.  Notification sends are embedded
as the list of alert kinds dispatched by a call; message strings carry no
information beyond the kind and are elided.  JavaScript objects keyed by
track id are embedded as association lists keyed by `Nat` (the source keys
by `String(id)`, and `String` of a track id is injective, so `Nat` keys are
faithful); sets of track ids (`trackSeenInside`, `registeredTrackIds`,
whose values are only ever `true`) are embedded as `List Nat` membership.
-/

/-- A 2D point, as used for polygon vertices and detection centers
(normalized coordinates in the source). -/
structure Point where
  x : ℚ
  y : ℚ
deriving DecidableEq, Repr

/-- The alert kinds passed to `sendAlertNotification` in main.js. -/
inductive AlertType where
  | wandering
  | disappeared
  | disappearedAfterOutside
  | returned
deriving DecidableEq, Repr

/-- One object-detection result, as consumed by `processDetectionForAlert`.
Fields that the source reads through `(d.field || 0)` are embedded as total
rationals. -/
structure Detection where
  id : Option Nat
  cls : String
  confidence : ℚ
  area : ℚ
  hits : ℚ
  bbox : ℚ × ℚ × ℚ × ℚ
deriving DecidableEq, Repr

/-- One frame event `{detections, frame_width, frame_height}`. -/
structure FrameData where
  detections : List Detection
  frame_width : ℚ
  frame_height : ℚ
deriving DecidableEq, Repr

/-- The `config` argument of `startAlertMonitoring`. -/
structure AlertConfig where
  deviceId : Option String
  lineUserId : Option String
  safeZone : Option (List Point)
  apiBaseUrl : Option String
deriving DecidableEq, Repr

/-- The module-level `alertMonitor` object of main.js.  `checkIntervalActive`
models whether `checkInterval` holds a live timer handle. -/
structure MonitorState where
  enabled : Bool
  deviceId : Option String
  lineUserId : Option String
  lastSeenInZoneTime : Option Int
  lastSeenAnywhereTime : Option Int
  wanderingAlertSent : Bool
  disappearedAlertSent : Bool
  dogDetected : Bool
  dogInZone : Bool
  checkIntervalActive : Bool
  safeZone : List Point
  apiBaseUrl : Option String
  registeredTrackIds : List Nat
  trackOutsideSince : List (Nat × Int)
  trackLastSeen : List (Nat × Int)
  trackSeenInside : List Nat
  trackSeenInsideSince : List (Nat × Int)
  trackSeenInsideHits : List (Nat × Int)
deriving DecidableEq, Repr

/-- The initial module-level `alertMonitor` literal (main.js lines 17-40).
`trackSeenInsideSince` and `trackSeenInsideHits` are absent from the literal
and lazily initialized to `{}` on first use, so they start empty. -/
def initialAlertMonitor : MonitorState where
  enabled := false
  deviceId := none
  lineUserId := none
  lastSeenInZoneTime := none
  lastSeenAnywhereTime := none
  wanderingAlertSent := false
  disappearedAlertSent := false
  dogDetected := false
  dogInZone := false
  checkIntervalActive := false
  safeZone := []
  apiBaseUrl := none
  registeredTrackIds := []
  trackOutsideSince := []
  trackLastSeen := []
  trackSeenInside := []
  trackSeenInsideSince := []
  trackSeenInsideHits := []

/-! ### Association-list embedding of the per-track JavaScript objects -/

/-- Lookup in a track-id-keyed object: `m[tid]`, `none` for `undefined`. -/
def lookupA (m : List (Nat × Int)) (k : Nat) : Option Int :=
  match m with
  | [] => none
  | e :: rest => if e.1 = k then some e.2 else lookupA rest k

/-- Lookup with a default, embedding `(m[tid] || d)` for a numeric default. -/
def lookupD (m : List (Nat × Int)) (k : Nat) (d : Int) : Int :=
  (lookupA m k).getD d

/-- `delete m[tid]`. -/
def eraseA (m : List (Nat × Int)) (k : Nat) : List (Nat × Int) :=
  m.filter (fun e => decide (e.1 ≠ k))

/-- `m[tid] = v`. -/
def insertA (m : List (Nat × Int)) (k : Nat) (v : Int) : List (Nat × Int) :=
  (k, v) :: eraseA m k

/-- `m[tid] = true` for the objects used as sets of track ids. -/
def insertS (l : List Nat) (k : Nat) : List Nat :=
  if k ∈ l then l else k :: l

/-- JavaScript truthiness of an optional number: `undefined`/`null` and `0`
are falsy. -/
def falsyO (o : Option Int) : Bool :=
  match o with
  | none => true
  | some v => v == 0

/-- `(x || 0)` on a nullable timestamp. -/
def orZero (o : Option Int) : Int :=
  match o with
  | none => 0
  | some v => v

/-! ### Geometry (main.js lines 67-99) -/

/-- One iteration of the ray-casting loop body of `isPointInPolygon`: the
edge is the pair `(polygon[i], polygon[j])`. -/
def rayCastStep (p : Point) (inside : Bool) (e : Point × Point) : Bool :=
  let intersect :=
    (decide (e.1.y > p.y) != decide (e.2.y > p.y)) &&
    decide (p.x < (e.2.x - e.1.x) * (p.y - e.1.y) / (e.2.y - e.1.y) + e.1.x)
  if intersect then !inside else inside

/-- The edges visited by the loop `for (i = 0, j = n-1; i < n; j = i++)`:
for index 0 the partner is the last vertex, afterwards the previous one. -/
def polygonEdges (poly : List Point) : List (Point × Point) :=
  poly.zip (poly.getLastD { x := 0, y := 0 } :: poly.dropLast)

/-- `isPointInPolygon(point, polygon)` (main.js lines 68-84).  A `none`
polygon models a null/undefined argument (`!polygon`). -/
def isPointInPolygon (point : Point) (polygon : Option (List Point)) : Bool :=
  match polygon with
  | none => true
  | some poly =>
    if poly.length < 3 then true
    else (polygonEdges poly).foldl (rayCastStep point) false

/-- `isDogInSafeZone(detection, frameWidth, frameHeight, safeZone)`
(main.js lines 87-99): empty zone means everywhere inside, otherwise test
the normalized bounding-box center. -/
def isDogInSafeZone (d : Detection) (frameWidth frameHeight : ℚ)
    (safeZone : List Point) : Bool :=
  if safeZone.length = 0 then true
  else
    let centerX := (d.bbox.1 + d.bbox.2.2.1) / 2 / frameWidth
    let centerY := (d.bbox.2.1 + d.bbox.2.2.2) / 2 / frameHeight
    isPointInPolygon { x := centerX, y := centerY } (some safeZone)

/-! ### Detection gate (main.js lines 361-368) -/

/-- The permissive presence list: dog-class detections passing the
confidence and area thresholds (`MIN_CONF = 0.25`, `MIN_AREA = 2000`). -/
def rawPresenceDetections (fd : FrameData) : List Detection :=
  (fd.detections.filter (fun d => d.cls == "dog")).filter
    (fun d => decide (d.confidence ≥ 1/4) && decide (d.area ≥ 2000))

/-- The strict list used for per-track zone decisions: presence detections
with `hits >= MIN_HITS` (3). -/
def stableDetections (fd : FrameData) : List Detection :=
  (rawPresenceDetections fd).filter (fun d => decide (d.hits ≥ 3))

/-! ### Known-track predicates shared by the tick and the frame path -/

/-- The staleness test `!seenInsideSince || (now - seenInsideSince) >
KNOWN_PET_INZONE_TTL_MS` applied to a track's seen-inside timestamp. -/
def staleInsideMark (s : MonitorState) (now : Int) (tid : Nat) : Bool :=
  match lookupA s.trackSeenInsideSince tid with
  | none => true
  | some v => v == 0 || decide (now - v > 600000)

/-- The filter applied to each `trackOutsideSince` entry by the tick's
disappearance loop: the outside timestamp is truthy, the track was seen
inside or is registered, and a seen-inside mark is not stale. -/
def knownOutsidePred (s : MonitorState) (now : Int) (tid : Nat)
    (since : Int) : Bool :=
  !(since == 0) &&
  (s.trackSeenInside.contains tid || s.registeredTrackIds.contains tid) &&
  !(s.trackSeenInside.contains tid && staleInsideMark s now tid)

/-- The wandering loops additionally require
`now - since >= PER_TRACK_OUTSIDE_MS` (15000). -/
def outsideLongPred (s : MonitorState) (now : Int) (tid : Nat)
    (since : Int) : Bool :=
  knownOutsidePred s now tid since && decide (now - since ≥ 15000)

/-- `knownOutsideThenMissing` computed by the tick's disappearance loop. -/
def knownOutsideThenMissing (s : MonitorState) (now : Int) : Bool :=
  s.trackOutsideSince.any (fun e => knownOutsidePred s now e.1 e.2)

/-- `anyTrackOutsideLong` computed by the tick's wandering loop and by the
frame path's wandering block. -/
def anyTrackOutsideLong (s : MonitorState) (now : Int) : Bool :=
  s.trackOutsideSince.any (fun e => outsideLongPred s now e.1 e.2)

/-! ### The periodic interval callback (main.js lines 194-294) -/

/-- The body of the `setInterval` callback installed by
`startAlertMonitoring`: disappearance evaluation (10s, with the
outside-then-missing refinement, returning immediately after latching),
then the conservative wandering evaluation (15s per-track and 30s global
guards). -/
def alertCheckTick (s : MonitorState) (now : Int) : MonitorState × List AlertType :=
  if s.enabled = false then (s, [])
  else
    let timeSinceInZone := now - orZero s.lastSeenInZoneTime
    let timeSinceAnywhere := now - orZero s.lastSeenAnywhereTime
    if timeSinceAnywhere ≥ 10000 ∧ s.disappearedAlertSent = false then
      let known := knownOutsideThenMissing s now
      ({ s with disappearedAlertSent := true },
        [if known then AlertType.disappearedAfterOutside else AlertType.disappeared])
    else
      if anyTrackOutsideLong s now = true ∧ timeSinceInZone ≥ 30000 ∧
          s.wanderingAlertSent = false ∧ s.dogDetected = true then
        ({ s with wanderingAlertSent := true }, [AlertType.wandering])
      else (s, [])

/-! ### Per-detection loop of processDetectionForAlert (main.js 379-428) -/

/-- `trackLastSeen[tid] = now` when the detection has an id. -/
def touchLastSeen (s : MonitorState) (oid : Option Nat) (now : Int) : MonitorState :=
  match oid with
  | some t => { s with trackLastSeen := insertA s.trackLastSeen t now }
  | none => s

/-- The in-zone bookkeeping: increment `trackSeenInsideHits[tid]` and, once
it reaches `MIN_INSIDE_HITS_TO_REGISTER` (2), mark the track seen inside
and refresh `trackSeenInsideSince[tid]`. -/
def registerInside (s : MonitorState) (oid : Option Nat) (now : Int) : MonitorState :=
  match oid with
  | some t =>
    let newHits := lookupD s.trackSeenInsideHits t 0 + 1
    let sh := { s with trackSeenInsideHits := insertA s.trackSeenInsideHits t newHits }
    if newHits ≥ 2 then
      { sh with trackSeenInside := insertS sh.trackSeenInside t,
                trackSeenInsideSince := insertA sh.trackSeenInsideSince t now }
    else sh
  | none => s

/-- `if (tid && trackOutsideSince[tid]) delete trackOutsideSince[tid]`. -/
def clearOutside (s : MonitorState) (oid : Option Nat) : MonitorState :=
  match oid with
  | some t =>
    if falsyO (lookupA s.trackOutsideSince t) = false then
      { s with trackOutsideSince := eraseA s.trackOutsideSince t }
    else s
  | none => s

/-- Outside branch: start the outside timer only when the detection has an
id and no (truthy) timer is running. -/
def markOutside (s : MonitorState) (oid : Option Nat) (now : Int) : MonitorState :=
  match oid with
  | some t =>
    if falsyO (lookupA s.trackOutsideSince t) = true then
      { s with trackOutsideSince := insertA s.trackOutsideSince t now }
    else s
  | none => s

/-- The `for (const detection of stableDetections)` loop.  Returns the
updated state, the `dogInSafeZone` flag, and the notifications sent.  The
first in-zone detection registers the track, clears its outside timer,
refreshes both last-seen times, clears both alert flags (sending one
`returned` if either was set) and breaks out of the loop. -/
def processLoop (w h : ℚ) (now : Int) :
    MonitorState → List Detection → MonitorState × Bool × List AlertType
  | s, [] => (s, false, [])
  | s, d :: rest =>
    let s1 := touchLastSeen s d.id now
    if isDogInSafeZone d w h s1.safeZone = true then
      let s2 := registerInside s1 d.id now
      let s3 := clearOutside s2 d.id
      let s4 := { s3 with lastSeenInZoneTime := some now,
                          lastSeenAnywhereTime := some now }
      let wasW := s4.wanderingAlertSent
      let wasD := s4.disappearedAlertSent
      ({ s4 with wanderingAlertSent := false, disappearedAlertSent := false },
        true,
        if wasW || wasD then [AlertType.returned] else [])
    else
      processLoop w h now (markOutside s1 d.id now) rest

/-! ### Pruning (main.js lines 430-448) -/

/-- Is `tid` stale by the `PRUNE_MS` (60000) window of `trackLastSeen`? -/
def staleByLastSeen (m : List (Nat × Int)) (now : Int) (tid : Nat) : Bool :=
  match lookupA m tid with
  | some t => decide (now - t > 60000)
  | none => false

/-- Is `tid` stale by the `KNOWN_PET_INZONE_TTL_MS` (600000) window of
`trackSeenInsideSince`? -/
def staleBySeenInsideSince (m : List (Nat × Int)) (now : Int) (tid : Nat) : Bool :=
  match lookupA m tid with
  | some t => decide (now - t > 600000)
  | none => false

/-- The two prune loops: tracks unseen for more than `PRUNE_MS` are deleted
from every per-track map; afterwards, tracks whose seen-inside timestamp is
older than the known-pet TTL lose their seen-inside mark, timestamp and hit
counter. -/
def pruneTracks (s : MonitorState) (now : Int) : MonitorState :=
  let s1 :=
    { s with
      trackLastSeen := s.trackLastSeen.filter
        (fun e => !staleByLastSeen s.trackLastSeen now e.1),
      trackOutsideSince := s.trackOutsideSince.filter
        (fun e => !staleByLastSeen s.trackLastSeen now e.1),
      trackSeenInside := s.trackSeenInside.filter
        (fun tid => !staleByLastSeen s.trackLastSeen now tid),
      trackSeenInsideSince := s.trackSeenInsideSince.filter
        (fun e => !staleByLastSeen s.trackLastSeen now e.1),
      trackSeenInsideHits := s.trackSeenInsideHits.filter
        (fun e => !staleByLastSeen s.trackLastSeen now e.1) }
  { s1 with
    trackSeenInside := s1.trackSeenInside.filter
      (fun tid => !staleBySeenInsideSince s1.trackSeenInsideSince now tid),
    trackSeenInsideSince := s1.trackSeenInsideSince.filter
      (fun e => !staleBySeenInsideSince s1.trackSeenInsideSince now e.1),
    trackSeenInsideHits := s1.trackSeenInsideHits.filter
      (fun e => !staleBySeenInsideSince s1.trackSeenInsideSince now e.1) }

/-! ### processDetectionForAlert (main.js lines 331-500) -/

/-- The `dogDetected && !dogInSafeZone` block at the end of
`processDetectionForAlert` (main.js lines 457-497): fire the wandering
alert when the per-track and global guards pass and the flag is not yet
latched, then clear a latched disappearance flag because the dog was
detected again. -/
def frameWanderingBlock (s : MonitorState) (alerts : List AlertType)
    (now : Int) : MonitorState × List AlertType :=
  let timeSinceInZone := now - orZero s.lastSeenInZoneTime
  if anyTrackOutsideLong s now = true ∧ timeSinceInZone ≥ 30000 ∧
      s.wanderingAlertSent = false then
    let sF := { s with wanderingAlertSent := true }
    let sG := if sF.disappearedAlertSent = true then
        { sF with disappearedAlertSent := false } else sF
    (sG, alerts ++ [AlertType.wandering])
  else
    let sG := if s.disappearedAlertSent = true then
        { s with disappearedAlertSent := false } else s
    (sG, alerts)

/-- The presence bookkeeping at the top of `processDetectionForAlert`
(main.js lines 370-375): refresh `lastSeenAnywhereTime` when the permissive
presence list is nonempty, and store `dogDetected`. -/
def presenceUpdate (s : MonitorState) (fd : FrameData) (now : Int) : MonitorState :=
  { (if (!(rawPresenceDetections fd).isEmpty) = true
     then { s with lastSeenAnywhereTime := some now } else s) with
    dogDetected := !(rawPresenceDetections fd).isEmpty }

/-- `processDetectionForAlert(data)`: gate the detections, update presence,
run the per-detection loop, prune, then either return (in-zone), run the
frame-path wandering block (detected but not in zone), or fall through (no
detection).  Returns the new state and the notifications dispatched. -/
def processDetectionForAlert (s : MonitorState) (data : Option FrameData)
    (now : Int) : MonitorState × List AlertType :=
  match data with
  | none => (s, [])
  | some fd =>
    if s.enabled = false then (s, [])
    else
      let sB := presenceUpdate s fd now
      let r := processLoop fd.frame_width fd.frame_height now sB (stableDetections fd)
      let sE := { pruneTracks r.1 now with dogInZone := r.2.1 }
      if r.2.1 = true then (sE, r.2.2)
      else if (!(rawPresenceDetections fd).isEmpty) = true then
        frameWanderingBlock sE r.2.2 now
      else (sE, r.2.2)

/-! ### startAlertMonitoring / stopAlertMonitoring (main.js 146-325) -/

/-- The defensive safe-zone normalization (main.js lines 174-182): if the
zone is nonempty and the first point's x component exceeds 1, divide every
point by the assumed 640x480 frame. -/
def normalizeSafeZone (zone : List Point) : List Point :=
  match zone with
  | [] => zone
  | p :: _ =>
    if p.x > 1 then zone.map (fun q => { x := q.x / 640, y := q.y / 480 })
    else zone

/-- `startAlertMonitoring(config)` (main.js lines 146-299): enable, store
the config, reset the baseline (`lastSeenInZoneTime = 0`,
`lastSeenAnywhereTime = Date.now()`, flags cleared), reinitialize the three
per-track maps named there, normalize the zone, and (re)install the
interval.  `trackSeenInsideSince` and `trackSeenInsideHits` are not
reinitialized by the source. -/
def startAlertMonitoring (s : MonitorState) (config : Option AlertConfig)
    (now : Int) : MonitorState :=
  let cfg := config.getD { deviceId := none, lineUserId := none,
                           safeZone := none, apiBaseUrl := none }
  { s with
    enabled := true
    deviceId := cfg.deviceId
    lineUserId := cfg.lineUserId
    safeZone := normalizeSafeZone (cfg.safeZone.getD [])
    apiBaseUrl := cfg.apiBaseUrl
    lastSeenInZoneTime := some 0
    lastSeenAnywhereTime := some now
    wanderingAlertSent := false
    disappearedAlertSent := false
    dogDetected := false
    dogInZone := false
    trackOutsideSince := []
    trackLastSeen := []
    trackSeenInside := []
    checkIntervalActive := true }

/-- `stopAlertMonitoring()` (main.js lines 303-325): disable, cancel the
interval, null the timestamps, clear the flags and the three per-track maps
named there.  `trackSeenInsideSince` and `trackSeenInsideHits` are not
cleared by the source. -/
def stopAlertMonitoring (s : MonitorState) : MonitorState :=
  { s with
    enabled := false
    checkIntervalActive := false
    lastSeenInZoneTime := none
    lastSeenAnywhereTime := none
    wanderingAlertSent := false
    disappearedAlertSent := false
    dogDetected := false
    dogInZone := false
    trackOutsideSince := []
    trackLastSeen := []
    trackSeenInside := [] }

/-! ### Event sequences -/

/-- The two triggers that mutate the monitor state: the periodic interval
callback and a detection frame. -/
inductive MonitorEvent where
  | tick (now : Int)
  | frame (data : FrameData) (now : Int)
deriving DecidableEq, Repr

/-- Dispatch one event to the engine. -/
def stepEvent (s : MonitorState) : MonitorEvent → MonitorState × List AlertType
  | .tick now => alertCheckTick s now
  | .frame fd now => processDetectionForAlert s (some fd) now

/-- Run a sequence of events, accumulating all dispatched notifications. -/
def runEvents (s : MonitorState) : List MonitorEvent → MonitorState × List AlertType
  | [] => (s, [])
  | e :: rest =>
    let r1 := stepEvent s e
    let r2 := runEvents r1.1 rest
    (r2.1, r1.2 ++ r2.2)

/-- Does a frame contain a stable detection lying inside the zone? -/
def frameHasStableInZone (zone : List Point) (fd : FrameData) : Bool :=
  (stableDetections fd).any
    (fun d => isDogInSafeZone d fd.frame_width fd.frame_height zone)

/-! ### Basic lemmas about the association-list operations -/

lemma lookupA_eraseA_ne (m : List (Nat × Int)) (k t : Nat) (h : k ≠ t) :
    lookupA (eraseA m t) k = lookupA m k := by
  induction m with
  | nil => rfl
  | cons e rest ih =>
    simp only [eraseA, List.filter_cons] at ih ⊢
    cases hd : decide (e.1 ≠ t) with
    | false =>
      have he : e.1 = t := not_not.mp (of_decide_eq_false hd)
      have hek : e.1 ≠ k := by intro hh; exact h (by rw [← hh]; exact he)
      rw [if_neg (by decide)]
      conv_rhs => rw [lookupA]
      rw [if_neg hek]
      exact ih
    | true =>
      rw [if_pos rfl]
      simp only [lookupA]
      by_cases hek : e.1 = k
      · rw [if_pos hek, if_pos hek]
      · rw [if_neg hek, if_neg hek]; exact ih

lemma lookupA_insertA_ne (m : List (Nat × Int)) (k t : Nat) (v : Int) (h : k ≠ t) :
    lookupA (insertA m t v) k = lookupA m k := by
  simp only [insertA, lookupA]
  rw [if_neg (fun hh => h hh.symm)]
  exact lookupA_eraseA_ne m k t h

lemma lookupA_filter_of_key_false {p : Nat × Int → Bool} (m : List (Nat × Int))
    (k : Nat) (h : ∀ v, p (k, v) = false) : lookupA (m.filter p) k = none := by
  induction m with
  | nil => rfl
  | cons e rest ih =>
    rw [List.filter_cons]
    by_cases hp : p e = true
    · have hek : e.1 ≠ k := by
        intro hk
        have hc := h e.2
        have he2 : ((k : Nat), e.2) = e := by rw [← hk]
        rw [he2, hp] at hc
        exact absurd hc (by decide)
      rw [if_pos hp]
      simp only [lookupA]
      rw [if_neg hek]
      exact ih
    · simp only [Bool.not_eq_true] at hp
      rw [hp, if_neg (by decide)]
      exact ih

lemma lookupA_filter_of_key_true {p : Nat × Int → Bool} (m : List (Nat × Int))
    (k : Nat) (h : ∀ v, p (k, v) = true) : lookupA (m.filter p) k = lookupA m k := by
  induction m with
  | nil => rfl
  | cons e rest ih =>
    rw [List.filter_cons]
    by_cases hp : p e = true
    · rw [if_pos hp]
      simp only [lookupA]
      by_cases hek : e.1 = k
      · rw [if_pos hek, if_pos hek]
      · rw [if_neg hek, if_neg hek]; exact ih
    · simp only [Bool.not_eq_true] at hp
      have hek : e.1 ≠ k := by
        intro hk
        have hc := h e.2
        have he2 : ((k : Nat), e.2) = e := by rw [← hk]
        rw [he2, hp] at hc
        exact absurd hc (by decide)
      rw [hp, if_neg (by decide)]
      conv_rhs => rw [lookupA]
      rw [if_neg hek]
      exact ih

lemma lookupA_filter_none {p : Nat × Int → Bool} (m : List (Nat × Int)) (k : Nat)
    (h : lookupA m k = none) : lookupA (m.filter p) k = none := by
  induction m with
  | nil => rfl
  | cons e rest ih =>
    simp only [lookupA] at h
    by_cases hek : e.1 = k
    · rw [if_pos hek] at h; exact absurd h (by simp)
    · rw [if_neg hek] at h
      rw [List.filter_cons]
      by_cases hp : p e = true
      · rw [if_pos hp]
        simp only [lookupA]
        rw [if_neg hek]
        exact ih h
      · simp only [Bool.not_eq_true] at hp
        rw [hp, if_neg (by decide)]
        exact ih h

/-! ### Field-preservation lemmas for the per-detection helpers -/

@[simp] lemma touchLastSeen_safeZone (s : MonitorState) (oid : Option Nat) (now : Int) :
    (touchLastSeen s oid now).safeZone = s.safeZone := by
  cases oid <;> rfl

@[simp] lemma touchLastSeen_wandering (s : MonitorState) (oid : Option Nat) (now : Int) :
    (touchLastSeen s oid now).wanderingAlertSent = s.wanderingAlertSent := by
  cases oid <;> rfl

@[simp] lemma touchLastSeen_disappeared (s : MonitorState) (oid : Option Nat) (now : Int) :
    (touchLastSeen s oid now).disappearedAlertSent = s.disappearedAlertSent := by
  cases oid <;> rfl

@[simp] lemma touchLastSeen_anywhere (s : MonitorState) (oid : Option Nat) (now : Int) :
    (touchLastSeen s oid now).lastSeenAnywhereTime = s.lastSeenAnywhereTime := by
  cases oid <;> rfl

@[simp] lemma touchLastSeen_inzone (s : MonitorState) (oid : Option Nat) (now : Int) :
    (touchLastSeen s oid now).lastSeenInZoneTime = s.lastSeenInZoneTime := by
  cases oid <;> rfl

@[simp] lemma touchLastSeen_outsideSince (s : MonitorState) (oid : Option Nat) (now : Int) :
    (touchLastSeen s oid now).trackOutsideSince = s.trackOutsideSince := by
  cases oid <;> rfl

@[simp] lemma registerInside_safeZone (s : MonitorState) (oid : Option Nat) (now : Int) :
    (registerInside s oid now).safeZone = s.safeZone := by
  cases oid with
  | none => rfl
  | some t => simp only [registerInside]; split <;> rfl

@[simp] lemma registerInside_wandering (s : MonitorState) (oid : Option Nat) (now : Int) :
    (registerInside s oid now).wanderingAlertSent = s.wanderingAlertSent := by
  cases oid with
  | none => rfl
  | some t => simp only [registerInside]; split <;> rfl

@[simp] lemma registerInside_disappeared (s : MonitorState) (oid : Option Nat) (now : Int) :
    (registerInside s oid now).disappearedAlertSent = s.disappearedAlertSent := by
  cases oid with
  | none => rfl
  | some t => simp only [registerInside]; split <;> rfl

@[simp] lemma registerInside_outsideSince (s : MonitorState) (oid : Option Nat) (now : Int) :
    (registerInside s oid now).trackOutsideSince = s.trackOutsideSince := by
  cases oid with
  | none => rfl
  | some t => simp only [registerInside]; split <;> rfl

@[simp] lemma clearOutside_safeZone (s : MonitorState) (oid : Option Nat) :
    (clearOutside s oid).safeZone = s.safeZone := by
  cases oid with
  | none => rfl
  | some t => simp only [clearOutside]; split <;> rfl

@[simp] lemma clearOutside_wandering (s : MonitorState) (oid : Option Nat) :
    (clearOutside s oid).wanderingAlertSent = s.wanderingAlertSent := by
  cases oid with
  | none => rfl
  | some t => simp only [clearOutside]; split <;> rfl

@[simp] lemma clearOutside_disappeared (s : MonitorState) (oid : Option Nat) :
    (clearOutside s oid).disappearedAlertSent = s.disappearedAlertSent := by
  cases oid with
  | none => rfl
  | some t => simp only [clearOutside]; split <;> rfl

@[simp] lemma markOutside_safeZone (s : MonitorState) (oid : Option Nat) (now : Int) :
    (markOutside s oid now).safeZone = s.safeZone := by
  cases oid with
  | none => rfl
  | some t => simp only [markOutside]; split <;> rfl

@[simp] lemma markOutside_wandering (s : MonitorState) (oid : Option Nat) (now : Int) :
    (markOutside s oid now).wanderingAlertSent = s.wanderingAlertSent := by
  cases oid with
  | none => rfl
  | some t => simp only [markOutside]; split <;> rfl

@[simp] lemma markOutside_disappeared (s : MonitorState) (oid : Option Nat) (now : Int) :
    (markOutside s oid now).disappearedAlertSent = s.disappearedAlertSent := by
  cases oid with
  | none => rfl
  | some t => simp only [markOutside]; split <;> rfl

@[simp] lemma markOutside_anywhere (s : MonitorState) (oid : Option Nat) (now : Int) :
    (markOutside s oid now).lastSeenAnywhereTime = s.lastSeenAnywhereTime := by
  cases oid with
  | none => rfl
  | some t => simp only [markOutside]; split <;> rfl

@[simp] lemma markOutside_inzone (s : MonitorState) (oid : Option Nat) (now : Int) :
    (markOutside s oid now).lastSeenInZoneTime = s.lastSeenInZoneTime := by
  cases oid with
  | none => rfl
  | some t => simp only [markOutside]; split <;> rfl

/-! ### Field-preservation lemmas for pruneTracks -/

@[simp] lemma pruneTracks_safeZone (s : MonitorState) (now : Int) :
    (pruneTracks s now).safeZone = s.safeZone := rfl

@[simp] lemma pruneTracks_wandering (s : MonitorState) (now : Int) :
    (pruneTracks s now).wanderingAlertSent = s.wanderingAlertSent := rfl

@[simp] lemma pruneTracks_disappeared (s : MonitorState) (now : Int) :
    (pruneTracks s now).disappearedAlertSent = s.disappearedAlertSent := rfl

@[simp] lemma pruneTracks_anywhere (s : MonitorState) (now : Int) :
    (pruneTracks s now).lastSeenAnywhereTime = s.lastSeenAnywhereTime := rfl

@[simp] lemma pruneTracks_inzone (s : MonitorState) (now : Int) :
    (pruneTracks s now).lastSeenInZoneTime = s.lastSeenInZoneTime := rfl

/-! ### Lemmas about the per-detection loop -/

lemma processLoop_alerts_cases (w h : ℚ) (now : Int) :
    ∀ (dets : List Detection) (s : MonitorState),
      (processLoop w h now s dets).2.2 = [] ∨
      (processLoop w h now s dets).2.2 = [AlertType.returned] := by
  intro dets
  induction dets with
  | nil => intro s; left; rfl
  | cons d rest ih =>
    intro s
    simp only [processLoop]
    split
    · by_cases hw : ((touchLastSeen s d.id now).wanderingAlertSent ||
          (touchLastSeen s d.id now).disappearedAlertSent) = true
      · right
        simp only [clearOutside_wandering, registerInside_wandering,
          clearOutside_disappeared, registerInside_disappeared] at hw ⊢
        rw [if_pos hw]
      · left
        simp only [Bool.not_eq_true] at hw
        simp only [clearOutside_wandering, registerInside_wandering,
          clearOutside_disappeared, registerInside_disappeared] at hw ⊢
        rw [if_neg (by rw [hw]; exact Bool.false_ne_true)]
    · exact ih _

lemma processLoop_safeZone (w h : ℚ) (now : Int) :
    ∀ (dets : List Detection) (s : MonitorState),
      (processLoop w h now s dets).1.safeZone = s.safeZone := by
  intro dets
  induction dets with
  | nil => intro s; rfl
  | cons d rest ih =>
    intro s
    simp only [processLoop]
    split
    · simp
    · rw [ih]; simp

lemma processLoop_anywhere (w h : ℚ) (now : Int) :
    ∀ (dets : List Detection) (s : MonitorState),
      s.lastSeenAnywhereTime = some now →
      (processLoop w h now s dets).1.lastSeenAnywhereTime = some now := by
  intro dets
  induction dets with
  | nil => intro s hs; exact hs
  | cons d rest ih =>
    intro s hs
    simp only [processLoop]
    split
    · rfl
    · exact ih _ (by simp [hs])

lemma processLoop_no_inzone (w h : ℚ) (now : Int) :
    ∀ (dets : List Detection) (s : MonitorState),
      (∀ d ∈ dets, isDogInSafeZone d w h s.safeZone = false) →
      (processLoop w h now s dets).2.1 = false ∧
      (processLoop w h now s dets).2.2 = [] ∧
      (processLoop w h now s dets).1.wanderingAlertSent = s.wanderingAlertSent ∧
      (processLoop w h now s dets).1.disappearedAlertSent = s.disappearedAlertSent := by
  intro dets
  induction dets with
  | nil => intro s _; exact ⟨rfl, rfl, rfl, rfl⟩
  | cons d rest ih =>
    intro s hno
    simp only [processLoop]
    split
    · rename_i hin
      rw [touchLastSeen_safeZone] at hin
      exact absurd hin (by rw [hno d (List.mem_cons_self d rest)]; exact Bool.false_ne_true)
    · have hrest : ∀ d2 ∈ rest, isDogInSafeZone d2 w h
          (markOutside (touchLastSeen s d.id now) d.id now).safeZone = false := by
        intro d2 hd2
        rw [markOutside_safeZone, touchLastSeen_safeZone]
        exact hno d2 (List.mem_cons_of_mem d hd2)
      obtain ⟨h1, h2, h3, h4⟩ := ih (markOutside (touchLastSeen s d.id now) d.id now) hrest
      refine ⟨h1, h2, ?_, ?_⟩
      · rw [h3]; simp
      · rw [h4]; simp

lemma processLoop_inzone_spec (w h : ℚ) (now : Int) :
    ∀ (dets : List Detection) (s : MonitorState),
      (∃ d ∈ dets, isDogInSafeZone d w h s.safeZone = true) →
      (processLoop w h now s dets).2.1 = true ∧
      (processLoop w h now s dets).1.wanderingAlertSent = false ∧
      (processLoop w h now s dets).1.disappearedAlertSent = false ∧
      (processLoop w h now s dets).2.2 =
        (if s.wanderingAlertSent || s.disappearedAlertSent
         then [AlertType.returned] else []) := by
  intro dets
  induction dets with
  | nil => intro s hex; exact absurd hex (by simp)
  | cons d rest ih =>
    intro s hex
    simp only [processLoop]
    split
    · refine ⟨rfl, rfl, rfl, ?_⟩
      simp only [clearOutside_wandering, registerInside_wandering,
        clearOutside_disappeared, registerInside_disappeared,
        touchLastSeen_wandering, touchLastSeen_disappeared]
    · rename_i hnin
      rw [touchLastSeen_safeZone] at hnin
      have hd0 : isDogInSafeZone d w h s.safeZone = false := by
        revert hnin
        cases isDogInSafeZone d w h s.safeZone <;> simp
      have hex2 : ∃ d2 ∈ rest, isDogInSafeZone d2 w h
          (markOutside (touchLastSeen s d.id now) d.id now).safeZone = true := by
        obtain ⟨d2, hd2, hz⟩ := hex
        rcases List.mem_cons.mp hd2 with hcase | hcase
        · exfalso; rw [hcase] at hz; rw [hz] at hd0; simp at hd0
        · exact ⟨d2, hcase, by rw [markOutside_safeZone, touchLastSeen_safeZone]; exact hz⟩
      obtain ⟨h1, h2, h3, h4⟩ := ih _ hex2
      refine ⟨h1, h2, h3, ?_⟩
      rw [h4]
      simp

lemma clearOutside_lookup_ne (s : MonitorState) (t tid : Nat) (h : tid ≠ t) :
    lookupA (clearOutside s (some t)).trackOutsideSince tid =
    lookupA s.trackOutsideSince tid := by
  simp only [clearOutside]
  split
  · exact lookupA_eraseA_ne _ _ _ h
  · rfl

lemma markOutside_lookup_ne (s : MonitorState) (t tid : Nat) (now : Int) (h : tid ≠ t) :
    lookupA (markOutside s (some t) now).trackOutsideSince tid =
    lookupA s.trackOutsideSince tid := by
  simp only [markOutside]
  split
  · exact lookupA_insertA_ne _ _ _ _ h
  · rfl

lemma processLoop_outside_lookup (w h : ℚ) (now : Int) (tid : Nat) :
    ∀ (dets : List Detection) (s : MonitorState),
      (∀ d ∈ dets, d.id ≠ some tid) →
      lookupA (processLoop w h now s dets).1.trackOutsideSince tid =
      lookupA s.trackOutsideSince tid := by
  intro dets
  induction dets with
  | nil => intro s _; rfl
  | cons d rest ih =>
    intro s hid
    have hd : d.id ≠ some tid := hid d (List.mem_cons_self d rest)
    simp only [processLoop]
    split
    · dsimp only
      cases hcase : d.id with
      | none =>
        simp only [clearOutside, registerInside_outsideSince, touchLastSeen_outsideSince]
      | some t =>
        have ht : tid ≠ t := by
          intro hh
          exact hd (by rw [hcase, hh])
        rw [clearOutside_lookup_ne _ _ _ ht,
          registerInside_outsideSince, touchLastSeen_outsideSince]
    · have hrest : ∀ d2 ∈ rest, d2.id ≠ some tid :=
        fun d2 hd2 => hid d2 (List.mem_cons_of_mem d hd2)
      rw [ih _ hrest]
      cases hcase : d.id with
      | none => simp only [markOutside, touchLastSeen_outsideSince]
      | some t =>
        have ht : tid ≠ t := by
          intro hh
          exact hd (by rw [hcase, hh])
        rw [markOutside_lookup_ne _ _ _ _ ht, touchLastSeen_outsideSince]

lemma pruneTracks_outside_lookup_some (s : MonitorState) (now : Int) (tid : Nat)
    (v : Int) (hv : lookupA (pruneTracks s now).trackOutsideSince tid = some v) :
    lookupA s.trackOutsideSince tid = some v := by
  have heq : (pruneTracks s now).trackOutsideSince =
      s.trackOutsideSince.filter
        (fun e => !staleByLastSeen s.trackLastSeen now e.1) := rfl
  rw [heq] at hv
  by_cases hst : staleByLastSeen s.trackLastSeen now tid = true
  · rw [lookupA_filter_of_key_false _ _ (fun v2 => by simp [hst])] at hv
    exact absurd hv (by simp)
  · simp only [Bool.not_eq_true] at hst
    rw [lookupA_filter_of_key_true _ _ (fun v2 => by simp [hst])] at hv
    exact hv


/-! ### State-preservation lemmas for the two triggers -/

@[simp] lemma frameWanderingBlock_safeZone (s : MonitorState) (alerts : List AlertType)
    (now : Int) : (frameWanderingBlock s alerts now).1.safeZone = s.safeZone := by
  simp only [frameWanderingBlock]
  split
  · split <;> rfl
  · split <;> rfl

@[simp] lemma frameWanderingBlock_anywhere (s : MonitorState) (alerts : List AlertType)
    (now : Int) :
    (frameWanderingBlock s alerts now).1.lastSeenAnywhereTime = s.lastSeenAnywhereTime := by
  simp only [frameWanderingBlock]
  split
  · split <;> rfl
  · split <;> rfl

lemma frameWanderingBlock_latched (s : MonitorState) (alerts : List AlertType)
    (now : Int) (h : s.wanderingAlertSent = true) :
    (frameWanderingBlock s alerts now).1.wanderingAlertSent = true ∧
    (frameWanderingBlock s alerts now).2 = alerts := by
  simp only [frameWanderingBlock]
  rw [if_neg (by intro hc; rw [h] at hc; exact absurd hc.2.2 (by simp))]
  constructor
  · split <;> exact h
  · split <;> rfl

@[simp] lemma presenceUpdate_safeZone (s : MonitorState) (fd : FrameData) (now : Int) :
    (presenceUpdate s fd now).safeZone = s.safeZone := by
  simp only [presenceUpdate]
  split <;> rfl

@[simp] lemma presenceUpdate_wandering (s : MonitorState) (fd : FrameData) (now : Int) :
    (presenceUpdate s fd now).wanderingAlertSent = s.wanderingAlertSent := by
  simp only [presenceUpdate]
  split <;> rfl

@[simp] lemma presenceUpdate_disappeared (s : MonitorState) (fd : FrameData) (now : Int) :
    (presenceUpdate s fd now).disappearedAlertSent = s.disappearedAlertSent := by
  simp only [presenceUpdate]
  split <;> rfl

@[simp] lemma presenceUpdate_outsideSince (s : MonitorState) (fd : FrameData) (now : Int) :
    (presenceUpdate s fd now).trackOutsideSince = s.trackOutsideSince := by
  simp only [presenceUpdate]
  split <;> rfl

lemma presenceUpdate_anywhere_of_detected (s : MonitorState) (fd : FrameData) (now : Int)
    (h : rawPresenceDetections fd ≠ []) :
    (presenceUpdate s fd now).lastSeenAnywhereTime = some now := by
  simp only [presenceUpdate]
  rw [if_pos (by simp [List.isEmpty_iff, h])]

lemma processDetectionForAlert_safeZone (s : MonitorState) (data : Option FrameData)
    (now : Int) : (processDetectionForAlert s data now).1.safeZone = s.safeZone := by
  cases data with
  | none => rfl
  | some fd =>
    simp only [processDetectionForAlert]
    split
    · rfl
    · split
      · dsimp only
        rw [pruneTracks_safeZone, processLoop_safeZone, presenceUpdate_safeZone]
      · split
        · rw [frameWanderingBlock_safeZone]
          dsimp only
          rw [pruneTracks_safeZone, processLoop_safeZone, presenceUpdate_safeZone]
        · dsimp only
          rw [pruneTracks_safeZone, processLoop_safeZone, presenceUpdate_safeZone]

lemma alertCheckTick_wandering_latched (s : MonitorState) (now : Int)
    (h : s.wanderingAlertSent = true) :
    (alertCheckTick s now).1.wanderingAlertSent = true ∧
    AlertType.wandering ∉ (alertCheckTick s now).2 := by
  simp only [alertCheckTick]
  split
  · exact ⟨h, by simp⟩
  · split
    · refine ⟨h, ?_⟩
      split <;> simp
    · split
      · rename_i hc
        rw [h] at hc
        exact absurd hc.2.2.1 (by simp)
      · exact ⟨h, by simp⟩

lemma processDetectionForAlert_wandering_latched (s : MonitorState) (fd : FrameData)
    (now : Int) (h : s.wanderingAlertSent = true)
    (hno : frameHasStableInZone s.safeZone fd = false) :
    (processDetectionForAlert s (some fd) now).1.wanderingAlertSent = true ∧
    (processDetectionForAlert s (some fd) now).2 = [] := by
  have hall : ∀ d ∈ stableDetections fd,
      isDogInSafeZone d fd.frame_width fd.frame_height
        (presenceUpdate s fd now).safeZone = false := by
    intro d hd
    rw [presenceUpdate_safeZone]
    have := List.any_eq_false.mp hno d hd
    revert this
    cases isDogInSafeZone d fd.frame_width fd.frame_height s.safeZone <;> simp
  obtain ⟨h1, h2, h3, h4⟩ := processLoop_no_inzone fd.frame_width fd.frame_height now
    (stableDetections fd) (presenceUpdate s fd now) hall
  simp only [processDetectionForAlert]
  split
  · exact ⟨h, rfl⟩
  · rw [if_neg (by rw [h1]; simp)]
    have hflag : (pruneTracks
        (processLoop fd.frame_width fd.frame_height now
          (presenceUpdate s fd now) (stableDetections fd)).1 now).wanderingAlertSent
        = true := by
      rw [pruneTracks_wandering, h3, presenceUpdate_wandering, h]
    split
    · have hl := frameWanderingBlock_latched
        { pruneTracks (processLoop fd.frame_width fd.frame_height now
            (presenceUpdate s fd now) (stableDetections fd)).1 now with
          dogInZone := (processLoop fd.frame_width fd.frame_height now
            (presenceUpdate s fd now) (stableDetections fd)).2.1 }
        (processLoop fd.frame_width fd.frame_height now
          (presenceUpdate s fd now) (stableDetections fd)).2.2 now hflag
      exact ⟨hl.1, by rw [hl.2, h2]⟩
    · exact ⟨hflag, h2⟩

lemma frameWanderingBlock_alerts (s : MonitorState) (alerts : List AlertType)
    (now : Int) :
    (frameWanderingBlock s alerts now).2 = alerts ∨
    (frameWanderingBlock s alerts now).2 = alerts ++ [AlertType.wandering] := by
  simp only [frameWanderingBlock]
  split
  · right; split <;> rfl
  · left; split <;> rfl

lemma processDetectionForAlert_alert_kinds (s : MonitorState) (data : Option FrameData)
    (now : Int) :
    ∀ a ∈ (processDetectionForAlert s data now).2,
      a = AlertType.returned ∨ a = AlertType.wandering := by
  cases data with
  | none => intro a ha; exact absurd ha (by simp [processDetectionForAlert])
  | some fd =>
    have hloop := processLoop_alerts_cases fd.frame_width fd.frame_height now
      (stableDetections fd) (presenceUpdate s fd now)
    intro a ha
    simp only [processDetectionForAlert] at ha
    revert ha
    split
    · intro ha; exact absurd ha (by simp)
    · split
      · intro ha
        rcases hloop with hc | hc <;> rw [hc] at ha
        · exact absurd ha (by simp)
        · left; simpa using ha
      · split
        · intro ha
          rcases frameWanderingBlock_alerts
              { pruneTracks (processLoop fd.frame_width fd.frame_height now
                  (presenceUpdate s fd now) (stableDetections fd)).1 now with
                dogInZone := (processLoop fd.frame_width fd.frame_height now
                  (presenceUpdate s fd now) (stableDetections fd)).2.1 }
              (processLoop fd.frame_width fd.frame_height now
                (presenceUpdate s fd now) (stableDetections fd)).2.2 now with hb | hb <;>
            rw [hb] at ha
          · rcases hloop with hc | hc <;> rw [hc] at ha
            · exact absurd ha (by simp)
            · left; simpa using ha
          · rcases hloop with hc | hc <;> rw [hc] at ha <;> simp only [List.mem_append] at ha
            · rcases ha with ha | ha
              · exact absurd ha (by simp)
              · right; simpa using ha
            · rcases ha with ha | ha
              · left; simpa using ha
              · right; simpa using ha
        · intro ha
          rcases hloop with hc | hc <;> rw [hc] at ha
          · exact absurd ha (by simp)
          · left; simpa using ha

@[simp] lemma frameWanderingBlock_outsideSince (s : MonitorState) (alerts : List AlertType)
    (now : Int) :
    (frameWanderingBlock s alerts now).1.trackOutsideSince = s.trackOutsideSince := by
  simp only [frameWanderingBlock]
  split
  · split <;> rfl
  · split <;> rfl

lemma mem_of_stableDetections (fd : FrameData) (d : Detection)
    (h : d ∈ stableDetections fd) : d ∈ fd.detections := by
  simp only [stableDetections, rawPresenceDetections] at h
  exact List.mem_of_mem_filter (List.mem_of_mem_filter (List.mem_of_mem_filter h))

/-! ### Claims -/

/-- Claim C9: for every polygon with fewer than 3 points (including a null
or empty polygon) and for every point, `isPointInPolygon` returns true. -/
theorem shortPolygon_always_inside (polygon : Option (List Point)) (p : Point)
    (h : (polygon.getD []).length < 3) : isPointInPolygon p polygon = true := by
  cases polygon with
  | none => rfl
  | some poly =>
    simp only [Option.getD] at h
    simp only [isPointInPolygon]
    rw [if_pos h]

/-- Witness for C9: a one-vertex polygon contains the point (5, 5). -/
theorem shortPolygon_always_inside_witness :
    ((some [({ x := 0, y := 0 } : Point)]).getD []).length < 3 ∧
    isPointInPolygon { x := 5, y := 5 } (some [{ x := 0, y := 0 }]) = true :=
  ⟨by simp, shortPolygon_always_inside (some [{ x := 0, y := 0 }]) { x := 5, y := 5 } (by simp)⟩

/-- Claim C6 (counterexample): `startAlertMonitoring` does not set
`lastSeenInZoneTime` to the current time: starting at time 5555 leaves it
at 0, refuting the claim that both last-seen fields are set to the current
time. -/
theorem start_baseline_counterexample :
    (startAlertMonitoring initialAlertMonitor none 5555).lastSeenInZoneTime ≠ some 5555 ∧
    (startAlertMonitoring initialAlertMonitor none 5555).lastSeenAnywhereTime = some 5555 := by
  decide

/-- Claim C6 (amended): on every start, `lastSeenAnywhereTime` is set to the
current time but `lastSeenInZoneTime` is set to 0 (so the global-outside
guard only applies once a dog has actually been seen in the zone), and both
alert flags are cleared. -/
theorem start_baseline_reset (s : MonitorState) (config : Option AlertConfig) (now : Int) :
    (startAlertMonitoring s config now).lastSeenInZoneTime = some 0 ∧
    (startAlertMonitoring s config now).lastSeenAnywhereTime = some now ∧
    (startAlertMonitoring s config now).wanderingAlertSent = false ∧
    (startAlertMonitoring s config now).disappearedAlertSent = false :=
  ⟨rfl, rfl, rfl, rfl⟩

/-- A polygon whose first point is normalized but whose second point is in
pixel coordinates, used to refute C7. -/
def pixelMixedZone : List Point :=
  [{ x := 1/2, y := 1/2 }, { x := 320, y := 240 }, { x := 3/5, y := 9/10 }]

/-- The start configuration carrying `pixelMixedZone`. -/
def pixelMixedConfig : AlertConfig :=
  { deviceId := none, lineUserId := none, safeZone := some pixelMixedZone,
    apiBaseUrl := none }

/-- Claim C7 (counterexample): a zone with a coordinate component greater
than 1 in its second point (but a first point with x ≤ 1) is not rescaled
at all: the normalization tests only the first point's x component. -/
theorem normalize_first_point_counterexample :
    (∃ q ∈ pixelMixedZone, q.x > 1 ∨ q.y > 1) ∧
    (startAlertMonitoring initialAlertMonitor (some pixelMixedConfig) 0).safeZone ≠
      pixelMixedZone.map (fun q => { x := q.x / 640, y := q.y / 480 }) := by
  constructor
  · refine ⟨{ x := 320, y := 240 }, by simp [pixelMixedZone], by norm_num⟩
  · have hz : (startAlertMonitoring initialAlertMonitor (some pixelMixedConfig) 0).safeZone =
        pixelMixedZone := by
      simp only [startAlertMonitoring, pixelMixedConfig, Option.getD_some, normalizeSafeZone,
        pixelMixedZone]
      rw [if_neg (by norm_num)]
    rw [hz]
    intro hcon
    rw [pixelMixedZone] at hcon
    simp only [List.map_cons, List.map_nil, List.cons.injEq, Point.mk.injEq] at hcon
    have := hcon.1.1
    norm_num at this

/-- Claim C7 (amended): the pixel-coordinate detection tests only the first
point's x component: when it exceeds 1 every point is divided by the
assumed 640x480 frame, and otherwise the zone is used unchanged (even if
other components exceed 1). -/
theorem normalize_first_point_rule (s : MonitorState) (cfg : AlertConfig) (now : Int)
    (p : Point) (rest : List Point) (hz : cfg.safeZone = some (p :: rest)) :
    (startAlertMonitoring s (some cfg) now).safeZone =
      (if p.x > 1
       then (p :: rest).map (fun q => { x := q.x / 640, y := q.y / 480 })
       else p :: rest) := by
  simp only [startAlertMonitoring, Option.getD_some, hz, normalizeSafeZone]

/-- Witness for the amended C7: a zone whose first point has x = 320 > 1 is
rescaled. -/
theorem normalize_first_point_rule_witness :
    (startAlertMonitoring initialAlertMonitor
      (some { deviceId := none, lineUserId := none,
              safeZone := some ({ x := 320, y := 240 } :: [{ x := 640, y := 0 }]),
              apiBaseUrl := none }) 0).safeZone =
      (if ({ x := 320, y := 240 } : Point).x > 1
       then ({ x := 320, y := 240 } :: [({ x := 640, y := 0 } : Point)]).map
         (fun q => { x := q.x / 640, y := q.y / 480 })
       else { x := 320, y := 240 } :: [{ x := 640, y := 0 }]) :=
  normalize_first_point_rule initialAlertMonitor _ 0 _ _ rfl

/-- A state with per-track memory accumulated during a session, used to
exhibit the stop/start leak of C5. -/
def c5PriorState : MonitorState :=
  { initialAlertMonitor with
    enabled := true
    trackSeenInside := [7]
    trackSeenInsideSince := [(7, 500)]
    trackSeenInsideHits := [(7, 1)]
    trackOutsideSince := [(7, 600)]
    trackLastSeen := [(7, 600)] }

/-- Claim C5 (code bug): `stopAlertMonitoring` followed by
`startAlertMonitoring` does not clear all per-track memory: the inside-hit
counter and confirmed-inside timestamp of track 7 survive the restart, even
though the source's own comments say "Clear all state" and "clear per-track
memory". -/
theorem stop_start_leaks_inside_memory :
    lookupA (startAlertMonitoring (stopAlertMonitoring c5PriorState)
      (some { deviceId := none, lineUserId := none, safeZone := some [],
              apiBaseUrl := none }) 100000).trackSeenInsideHits 7 = some 1 ∧
    lookupA (startAlertMonitoring (stopAlertMonitoring c5PriorState)
      (some { deviceId := none, lineUserId := none, safeZone := some [],
              apiBaseUrl := none }) 100000).trackSeenInsideSince 7 = some 500 := by
  decide

/-- A normalized square safe zone covering the upper-left quadrant, used in
the C1 counterexample session. -/
def wanderZone : List Point :=
  [{ x := 0, y := 0 }, { x := 1/2, y := 0 }, { x := 1/2, y := 1/2 }, { x := 0, y := 1/2 }]

/-- The start configuration of the C1 counterexample session. -/
def wanderConfig : AlertConfig :=
  { deviceId := none, lineUserId := none, safeZone := some wanderZone, apiBaseUrl := none }

/-- A stable dog detection whose bounding-box center lies inside
`wanderZone`. -/
def wanderDetIn : Detection :=
  { id := some 5, cls := "dog", confidence := 1, area := 10000, hits := 5,
    bbox := (100, 100, 200, 200) }

/-- A stable dog detection for the same track, outside `wanderZone`. -/
def wanderDetOut : Detection :=
  { id := some 5, cls := "dog", confidence := 1, area := 10000, hits := 5,
    bbox := (400, 400, 500, 500) }

/-- A frame containing the in-zone detection. -/
def wanderFrameIn : FrameData :=
  { detections := [wanderDetIn], frame_width := 640, frame_height := 480 }

/-- A frame containing the outside detection. -/
def wanderFrameOut : FrameData :=
  { detections := [wanderDetOut], frame_width := 640, frame_height := 480 }

/-- The session state right after `startAlertMonitoring` at time 0. -/
def wanderState0 : MonitorState :=
  startAlertMonitoring initialAlertMonitor (some wanderConfig) 0

/-- After one in-zone frame at t = 1000. -/
def wanderState1 : MonitorState :=
  (processDetectionForAlert wanderState0 (some wanderFrameIn) 1000).1

/-- After a second in-zone frame at t = 2000 (track 5 becomes known). -/
def wanderState2 : MonitorState :=
  (processDetectionForAlert wanderState1 (some wanderFrameIn) 2000).1

/-- After an outside frame at t = 40000 (outside timer starts). -/
def wanderState3 : MonitorState :=
  (processDetectionForAlert wanderState2 (some wanderFrameOut) 40000).1

/-- Claim C1 (counterexample): in the reachable state `wanderState3`
(obtained from a fresh start by the three frames above), processing the
outside frame at t = 70000 dispatches a `wandering` notification from the
frame path itself, refuting the claim that elapsed-time alerts are raised
only by the periodic tick. -/
theorem frame_path_wandering_dispatch :
    (processDetectionForAlert wanderState3 (some wanderFrameOut) 70000).2 =
      [AlertType.wandering] := by
  norm_num [wanderState3, wanderState2, wanderState1, wanderState0,
    startAlertMonitoring, normalizeSafeZone, processDetectionForAlert, presenceUpdate,
    frameWanderingBlock, rawPresenceDetections, stableDetections,
    processLoop, touchLastSeen, registerInside, clearOutside, markOutside,
    pruneTracks, staleByLastSeen, staleBySeenInsideSince,
    isDogInSafeZone, isPointInPolygon, polygonEdges, rayCastStep,
    lookupA, lookupD, insertA, insertS, eraseA, falsyO, orZero,
    anyTrackOutsideLong, outsideLongPred, knownOutsidePred, staleInsideMark,
    wanderFrameIn, wanderFrameOut, wanderDetIn, wanderDetOut, wanderConfig,
    wanderZone, initialAlertMonitor]

/-- Claim C1 (amended): the frame path never dispatches a disappearance
alert of either kind (`disappeared` and `disappeared_after_outside` are
raised only by the periodic tick); it can, however, dispatch `wandering`
and `returned`. -/
theorem frame_path_no_disappearance_alerts (s : MonitorState) (data : Option FrameData)
    (now : Int) :
    ((processDetectionForAlert s data now).2.all
      (fun a => !(a == AlertType.disappeared) &&
                !(a == AlertType.disappearedAfterOutside))) = true := by
  rw [List.all_eq_true]
  intro a ha
  rcases processDetectionForAlert_alert_kinds s data now a ha with h | h <;> rw [h] <;> rfl

/-- A mid-session state in which a known track (3) has been outside since
t = 40000, the last in-zone sighting was at t = 2000, and nothing has been
detected since t = 85000. -/
def latchScenarioState : MonitorState :=
  { initialAlertMonitor with
    enabled := true
    lastSeenInZoneTime := some 2000
    lastSeenAnywhereTime := some 85000
    dogDetected := true
    trackOutsideSince := [(3, 40000)]
    trackSeenInside := [3]
    trackSeenInsideSince := [(3, 95000)]
    trackLastSeen := [(3, 85000)] }

/-- Claim C2: with default thresholds, when no detection has been seen for
at least 10s, the disappearance alert is not latched, and some known
(non-expired seen-inside or registered) track has a truthy outside
timestamp, the tick dispatches exactly one `disappeared_after_outside`
notification and no `wandering` notification, latching the disappearance
flag and returning. -/
theorem tick_disappeared_after_outside_priority (s : MonitorState) (now : Int)
    (hen : s.enabled = true)
    (hgone : now - orZero s.lastSeenAnywhereTime ≥ 10000)
    (hnl : s.disappearedAlertSent = false)
    (hknown : ∃ e ∈ s.trackOutsideSince, knownOutsidePred s now e.1 e.2 = true) :
    alertCheckTick s now =
      ({ s with disappearedAlertSent := true }, [AlertType.disappearedAfterOutside]) := by
  have hk : knownOutsideThenMissing s now = true := by
    rw [knownOutsideThenMissing, List.any_eq_true]
    obtain ⟨e, he, hp⟩ := hknown
    exact ⟨e, he, hp⟩
  simp only [alertCheckTick]
  rw [if_neg (by rw [hen]; simp), if_pos ⟨hgone, hnl⟩, hk]
  rfl

/-- Witness for C2: in `latchScenarioState` at t = 100000, the tick fires
exactly one `disappeared_after_outside`, although track 3 has been outside
for 60s (over the 15s per-track threshold) and the global outside condition
(98s ≥ 30s) also holds. -/
theorem tick_disappeared_after_outside_priority_witness :
    alertCheckTick latchScenarioState 100000 =
      ({ latchScenarioState with disappearedAlertSent := true },
        [AlertType.disappearedAfterOutside]) :=
  tick_disappeared_after_outside_priority latchScenarioState 100000 rfl (by decide)
    rfl ⟨(3, 40000), by decide, by decide⟩

lemma alertCheckTick_safeZone (s : MonitorState) (now : Int) :
    (alertCheckTick s now).1.safeZone = s.safeZone := by
  simp only [alertCheckTick]
  split
  · rfl
  · split
    · rfl
    · split <;> rfl

/-- Claim C3: on a frame containing a stable in-zone detection (with
monitoring enabled), `processDetectionForAlert` clears both alert flags,
and dispatches exactly one `returned` notification when at least one flag
was set before the frame, and none when neither was set. -/
theorem stable_inzone_returned (s : MonitorState) (fd : FrameData) (now : Int)
    (hen : s.enabled = true)
    (hin : ∃ d ∈ stableDetections fd,
      isDogInSafeZone d fd.frame_width fd.frame_height s.safeZone = true) :
    (processDetectionForAlert s (some fd) now).1.wanderingAlertSent = false ∧
    (processDetectionForAlert s (some fd) now).1.disappearedAlertSent = false ∧
    (processDetectionForAlert s (some fd) now).2 =
      (if s.wanderingAlertSent || s.disappearedAlertSent
       then [AlertType.returned] else []) := by
  have hin2 : ∃ d ∈ stableDetections fd,
      isDogInSafeZone d fd.frame_width fd.frame_height
        (presenceUpdate s fd now).safeZone = true := by
    obtain ⟨d, hd, hz⟩ := hin
    exact ⟨d, hd, by rw [presenceUpdate_safeZone]; exact hz⟩
  obtain ⟨h1, h2, h3, h4⟩ := processLoop_inzone_spec fd.frame_width fd.frame_height now
    (stableDetections fd) (presenceUpdate s fd now) hin2
  simp only [processDetectionForAlert]
  rw [if_neg (by rw [hen]; simp), if_pos h1]
  refine ⟨?_, ?_, ?_⟩
  · dsimp only
    rw [pruneTracks_wandering, h2]
  · dsimp only
    rw [pruneTracks_disappeared, h3]
  · rw [h4, presenceUpdate_wandering, presenceUpdate_disappeared]

/-- A latched-wandering state with no configured zone, for the C3 witness. -/
def returnedScenarioState : MonitorState :=
  { initialAlertMonitor with enabled := true, wanderingAlertSent := true }

/-- A stable dog detection for the C3 witness. -/
def returnedScenarioDet : Detection :=
  { id := some 9, cls := "dog", confidence := 1, area := 5000, hits := 4,
    bbox := (0, 0, 100, 100) }

/-- A frame with one stable dog detection, for the C3 witness. -/
def returnedScenarioFrame : FrameData :=
  { detections := [returnedScenarioDet], frame_width := 640, frame_height := 480 }

/-- Witness for C3: from a latched wandering flag, the stable in-zone frame
clears both flags and emits exactly one `returned`. -/
theorem stable_inzone_returned_witness :
    (processDetectionForAlert returnedScenarioState (some returnedScenarioFrame) 1234).1.wanderingAlertSent = false ∧
    (processDetectionForAlert returnedScenarioState (some returnedScenarioFrame) 1234).1.disappearedAlertSent = false ∧
    (processDetectionForAlert returnedScenarioState (some returnedScenarioFrame) 1234).2 =
      (if returnedScenarioState.wanderingAlertSent || returnedScenarioState.disappearedAlertSent
       then [AlertType.returned] else []) :=
  stable_inzone_returned returnedScenarioState returnedScenarioFrame 1234 rfl
    ⟨returnedScenarioDet,
     by norm_num [stableDetections, rawPresenceDetections, returnedScenarioFrame,
       returnedScenarioDet],
     rfl⟩

/-- Claim C4: once `wanderingAlertSent` is latched, any sequence of ticks
and frames none of which contains a stable in-zone detection dispatches no
further `wandering` notification, and the flag stays latched. -/
theorem wandering_latch_debounce (s : MonitorState) (es : List MonitorEvent)
    (hw : s.wanderingAlertSent = true)
    (hno : ∀ e ∈ es, ∀ fd now, e = MonitorEvent.frame fd now →
      frameHasStableInZone s.safeZone fd = false) :
    AlertType.wandering ∉ (runEvents s es).2 ∧
    (runEvents s es).1.wanderingAlertSent = true := by
  induction es generalizing s with
  | nil => exact ⟨by simp [runEvents], hw⟩
  | cons e rest ih =>
    cases e with
    | tick tnow =>
      obtain ⟨ht1, ht2⟩ := alertCheckTick_wandering_latched s tnow hw
      have hsz : (alertCheckTick s tnow).1.safeZone = s.safeZone :=
        alertCheckTick_safeZone s tnow
      have hrest : ∀ e2 ∈ rest, ∀ fd now, e2 = MonitorEvent.frame fd now →
          frameHasStableInZone (alertCheckTick s tnow).1.safeZone fd = false := by
        intro e2 he2 fd now heq
        rw [hsz]
        exact hno e2 (List.mem_cons_of_mem _ he2) fd now heq
      obtain ⟨hm, hf⟩ := ih (alertCheckTick s tnow).1 ht1 hrest
      constructor
      · simp only [runEvents, stepEvent]
        intro hmem
        rcases List.mem_append.mp hmem with hx | hx
        · exact ht2 hx
        · exact hm hx
      · simp only [runEvents, stepEvent]
        exact hf
    | frame fd fnow =>
      have hhead : frameHasStableInZone s.safeZone fd = false :=
        hno _ (List.mem_cons_self _ _) fd fnow rfl
      obtain ⟨hp1, hp2⟩ := processDetectionForAlert_wandering_latched s fd fnow hw hhead
      have hsz : (processDetectionForAlert s (some fd) fnow).1.safeZone = s.safeZone :=
        processDetectionForAlert_safeZone s (some fd) fnow
      have hrest : ∀ e2 ∈ rest, ∀ fd2 now2, e2 = MonitorEvent.frame fd2 now2 →
          frameHasStableInZone (processDetectionForAlert s (some fd) fnow).1.safeZone fd2
            = false := by
        intro e2 he2 fd2 now2 heq
        rw [hsz]
        exact hno e2 (List.mem_cons_of_mem _ he2) fd2 now2 heq
      obtain ⟨hm, hf⟩ := ih (processDetectionForAlert s (some fd) fnow).1 hp1 hrest
      constructor
      · simp only [runEvents, stepEvent]
        intro hmem
        rcases List.mem_append.mp hmem with hx | hx
        · rw [hp2] at hx
          exact absurd hx (by simp)
        · exact hm hx
      · simp only [runEvents, stepEvent]
        exact hf

/-- A latched-wandering idle state for the C4 witness. -/
def latchedIdleState : MonitorState :=
  { initialAlertMonitor with enabled := true, wanderingAlertSent := true }

/-- A frame with no detections at all, for the C4 witness. -/
def latchedIdleFrame : FrameData :=
  { detections := [], frame_width := 640, frame_height := 480 }

/-- Witness for C4: a tick followed by an empty frame dispatches nothing
and leaves the wandering flag latched. -/
theorem wandering_latch_debounce_witness :
    AlertType.wandering ∉ (runEvents latchedIdleState
      [MonitorEvent.tick 5000, MonitorEvent.frame latchedIdleFrame 6000]).2 ∧
    (runEvents latchedIdleState
      [MonitorEvent.tick 5000, MonitorEvent.frame latchedIdleFrame 6000]).1.wanderingAlertSent
      = true :=
  wandering_latch_debounce latchedIdleState
    [MonitorEvent.tick 5000, MonitorEvent.frame latchedIdleFrame 6000] rfl
    (by
      intro e he fd now heq
      rcases List.mem_cons.mp he with h1 | h1
      · rw [h1] at heq
        simp at heq
      · rcases List.mem_cons.mp h1 with h2 | h2
        · rw [h2] at heq
          injection heq with hfd hnow
          rw [← hfd]
          rfl
        · exact absurd h2 (by simp))

/-- Claim C8: after a prune pass at time `now`, every track whose last-seen
timestamp is more than `PRUNE_MS` old is removed from all five per-track
maps; and every track whose confirmed-inside timestamp is more than
`KNOWN_PET_INZONE_TTL_MS` old loses its seen-inside mark, confirmed-inside
timestamp and inside-hit counter, while (when it is not itself prune-stale,
i.e. not already removed by the first clause) its last-seen and
outside-since entries are left unchanged. -/
theorem prune_pass_spec (s : MonitorState) (now : Int) :
    (∀ tid t, lookupA s.trackLastSeen tid = some t → now - t > 60000 →
      lookupA (pruneTracks s now).trackLastSeen tid = none ∧
      lookupA (pruneTracks s now).trackOutsideSince tid = none ∧
      tid ∉ (pruneTracks s now).trackSeenInside ∧
      lookupA (pruneTracks s now).trackSeenInsideSince tid = none ∧
      lookupA (pruneTracks s now).trackSeenInsideHits tid = none) ∧
    (∀ tid t, lookupA s.trackSeenInsideSince tid = some t → now - t > 600000 →
      tid ∉ (pruneTracks s now).trackSeenInside ∧
      lookupA (pruneTracks s now).trackSeenInsideSince tid = none ∧
      lookupA (pruneTracks s now).trackSeenInsideHits tid = none ∧
      (staleByLastSeen s.trackLastSeen now tid = false →
        lookupA (pruneTracks s now).trackLastSeen tid = lookupA s.trackLastSeen tid ∧
        lookupA (pruneTracks s now).trackOutsideSince tid =
          lookupA s.trackOutsideSince tid)) := by
  have hLS : (pruneTracks s now).trackLastSeen =
      s.trackLastSeen.filter (fun e => !staleByLastSeen s.trackLastSeen now e.1) := rfl
  have hOS : (pruneTracks s now).trackOutsideSince =
      s.trackOutsideSince.filter (fun e => !staleByLastSeen s.trackLastSeen now e.1) := rfl
  have hSI : (pruneTracks s now).trackSeenInside =
      (s.trackSeenInside.filter (fun tid => !staleByLastSeen s.trackLastSeen now tid)).filter
        (fun tid => !staleBySeenInsideSince
          (s.trackSeenInsideSince.filter
            (fun e => !staleByLastSeen s.trackLastSeen now e.1)) now tid) := rfl
  have hSIS : (pruneTracks s now).trackSeenInsideSince =
      (s.trackSeenInsideSince.filter (fun e => !staleByLastSeen s.trackLastSeen now e.1)).filter
        (fun e => !staleBySeenInsideSince
          (s.trackSeenInsideSince.filter
            (fun e2 => !staleByLastSeen s.trackLastSeen now e2.1)) now e.1) := rfl
  have hH : (pruneTracks s now).trackSeenInsideHits =
      (s.trackSeenInsideHits.filter (fun e => !staleByLastSeen s.trackLastSeen now e.1)).filter
        (fun e => !staleBySeenInsideSince
          (s.trackSeenInsideSince.filter
            (fun e2 => !staleByLastSeen s.trackLastSeen now e2.1)) now e.1) := rfl
  constructor
  · intro tid t ht hgt
    have hst : staleByLastSeen s.trackLastSeen now tid = true := by
      simp [staleByLastSeen, ht, hgt]
    refine ⟨?_, ?_, ?_, ?_, ?_⟩
    · rw [hLS]
      exact lookupA_filter_of_key_false _ _ (fun v => by simp [hst])
    · rw [hOS]
      exact lookupA_filter_of_key_false _ _ (fun v => by simp [hst])
    · rw [hSI]
      intro hmem
      have hm1 := (List.mem_filter.mp hmem).1
      have hm2 := (List.mem_filter.mp hm1).2
      rw [hst] at hm2
      exact absurd hm2 (by simp)
    · rw [hSIS]
      exact lookupA_filter_none _ _
        (lookupA_filter_of_key_false _ _ (fun v => by simp [hst]))
    · rw [hH]
      exact lookupA_filter_none _ _
        (lookupA_filter_of_key_false _ _ (fun v => by simp [hst]))
  · intro tid t ht hgt
    by_cases hst : staleByLastSeen s.trackLastSeen now tid = true
    · refine ⟨?_, ?_, ?_, ?_⟩
      · rw [hSI]
        intro hmem
        have hm1 := (List.mem_filter.mp hmem).1
        have hm2 := (List.mem_filter.mp hm1).2
        rw [hst] at hm2
        exact absurd hm2 (by simp)
      · rw [hSIS]
        exact lookupA_filter_none _ _
          (lookupA_filter_of_key_false _ _ (fun v => by simp [hst]))
      · rw [hH]
        exact lookupA_filter_none _ _
          (lookupA_filter_of_key_false _ _ (fun v => by simp [hst]))
      · intro hfalse
        rw [hst] at hfalse
        exact absurd hfalse (by simp)
    · simp only [Bool.not_eq_true] at hst
      have hkeep : ∀ v : Int,
          (fun e : Nat × Int => !staleByLastSeen s.trackLastSeen now e.1) (tid, v)
            = true := fun v => by simp [hst]
      have hs1 : lookupA
          (s.trackSeenInsideSince.filter
            (fun e => !staleByLastSeen s.trackLastSeen now e.1)) tid = some t := by
        rw [lookupA_filter_of_key_true _ _ hkeep]
        exact ht
      have hst2 : staleBySeenInsideSince
          (s.trackSeenInsideSince.filter
            (fun e => !staleByLastSeen s.trackLastSeen now e.1)) now tid = true := by
        simp [staleBySeenInsideSince, hs1, hgt]
      refine ⟨?_, ?_, ?_, ?_⟩
      · rw [hSI]
        intro hmem
        have hm2 := (List.mem_filter.mp hmem).2
        rw [hst2] at hm2
        exact absurd hm2 (by simp)
      · rw [hSIS]
        exact lookupA_filter_of_key_false _ _ (fun v => by simp [hst2])
      · rw [hH]
        exact lookupA_filter_of_key_false _ _ (fun v => by simp [hst2])
      · intro _
        constructor
        · rw [hLS]
          exact lookupA_filter_of_key_true _ _ hkeep
        · rw [hOS]
          exact lookupA_filter_of_key_true _ _ hkeep

/-- A registry with a prune-stale track 3 and a TTL-expired but recently
seen track 4, for the C8 witness. -/
def pruneScenarioState : MonitorState :=
  { initialAlertMonitor with
    enabled := true
    trackLastSeen := [(3, 5), (4, 690000)]
    trackOutsideSince := [(3, 7), (4, 9)]
    trackSeenInside := [3, 4]
    trackSeenInsideSince := [(3, 11), (4, 13)]
    trackSeenInsideHits := [(3, 2), (4, 6)] }

/-- Witness for C8 at t = 700000: track 3 (unseen for 700 s) disappears
from every map; track 4 (seen 10 s ago, confirmed inside 700 s ago) is
demoted but keeps its last-seen and outside-since entries. -/
theorem prune_pass_spec_witness :
    (lookupA (pruneTracks pruneScenarioState 700000).trackLastSeen 3 = none ∧
     lookupA (pruneTracks pruneScenarioState 700000).trackOutsideSince 3 = none ∧
     3 ∉ (pruneTracks pruneScenarioState 700000).trackSeenInside ∧
     lookupA (pruneTracks pruneScenarioState 700000).trackSeenInsideSince 3 = none ∧
     lookupA (pruneTracks pruneScenarioState 700000).trackSeenInsideHits 3 = none) ∧
    (4 ∉ (pruneTracks pruneScenarioState 700000).trackSeenInside ∧
     lookupA (pruneTracks pruneScenarioState 700000).trackSeenInsideSince 4 = none ∧
     lookupA (pruneTracks pruneScenarioState 700000).trackSeenInsideHits 4 = none ∧
     lookupA (pruneTracks pruneScenarioState 700000).trackLastSeen 4 =
       lookupA pruneScenarioState.trackLastSeen 4 ∧
     lookupA (pruneTracks pruneScenarioState 700000).trackOutsideSince 4 =
       lookupA pruneScenarioState.trackOutsideSince 4) := by
  obtain ⟨h1, h2⟩ := prune_pass_spec pruneScenarioState 700000
  obtain ⟨a1, a2, a3, a4, a5⟩ := h1 3 5 (by decide) (by decide)
  obtain ⟨b1, b2, b3, b4⟩ := h2 4 13 (by decide) (by decide)
  obtain ⟨c1, c2⟩ := b4 (by decide)
  exact ⟨⟨a1, a2, a3, a4, a5⟩, b1, b2, b3, c1, c2⟩

/-- Claim C10: the outside-timer map only acquires keys from detections
carrying a track id: a frame whose detections never carry id `tid` can only
shrink or preserve the `trackOutsideSince` entry of `tid` (so a stable
outside detection with a null id never starts an outside timer), while any
raw-presence detection (id or not) still refreshes `lastSeenAnywhereTime`. -/
theorem null_id_no_outside_timer (s : MonitorState) (fd : FrameData) (now : Int) :
    (∀ tid, (∀ d ∈ fd.detections, d.id ≠ some tid) →
      ∀ v, lookupA (processDetectionForAlert s (some fd) now).1.trackOutsideSince tid
          = some v →
        lookupA s.trackOutsideSince tid = some v) ∧
    (s.enabled = true → rawPresenceDetections fd ≠ [] →
      (processDetectionForAlert s (some fd) now).1.lastSeenAnywhereTime = some now) := by
  constructor
  · intro tid hid v hv
    have hid2 : ∀ d ∈ stableDetections fd, d.id ≠ some tid := by
      intro d hd
      exact hid d (mem_of_stableDetections fd d hd)
    have hloop := processLoop_outside_lookup fd.frame_width fd.frame_height now tid
      (stableDetections fd) (presenceUpdate s fd now) hid2
    simp only [processDetectionForAlert] at hv
    revert hv
    split
    · intro hv; exact hv
    · split
      · intro hv
        dsimp only at hv
        have := pruneTracks_outside_lookup_some _ now tid v hv
        rw [hloop, presenceUpdate_outsideSince] at this
        exact this
      · split
        · intro hv
          rw [frameWanderingBlock_outsideSince] at hv
          dsimp only at hv
          have := pruneTracks_outside_lookup_some _ now tid v hv
          rw [hloop, presenceUpdate_outsideSince] at this
          exact this
        · intro hv
          dsimp only at hv
          have := pruneTracks_outside_lookup_some _ now tid v hv
          rw [hloop, presenceUpdate_outsideSince] at this
          exact this
  · intro hen hraw
    have hsB := presenceUpdate_anywhere_of_detected s fd now hraw
    have hloop := processLoop_anywhere fd.frame_width fd.frame_height now
      (stableDetections fd) (presenceUpdate s fd now) hsB
    simp only [processDetectionForAlert]
    rw [if_neg (by rw [hen]; simp)]
    split
    · dsimp only
      rw [pruneTracks_anywhere]
      exact hloop
    · split
      · rw [frameWanderingBlock_anywhere]
        dsimp only
        rw [pruneTracks_anywhere]
        exact hloop
      · dsimp only
        rw [pruneTracks_anywhere]
        exact hloop

/-- A state with an existing outside timer for track 2, for the C10
witness. -/
def nullIdState : MonitorState :=
  { initialAlertMonitor with enabled := true, trackOutsideSince := [(2, 50)] }

/-- An empty frame for the first C10 witness conjunct. -/
def nullIdEmptyFrame : FrameData :=
  { detections := [], frame_width := 640, frame_height := 480 }

/-- A raw-presence dog detection with no track id, for the C10 witness. -/
def nullIdDet : Detection :=
  { id := none, cls := "dog", confidence := 1, area := 5000, hits := 0,
    bbox := (0, 0, 100, 100) }

/-- A frame whose only detection carries no id. -/
def nullIdDogFrame : FrameData :=
  { detections := [nullIdDet], frame_width := 640, frame_height := 480 }

/-- Witness for C10: processing a frame with no detection carrying id 2
preserves the outside timer of track 2, and a null-id raw-presence
detection still refreshes `lastSeenAnywhereTime`. -/
theorem null_id_no_outside_timer_witness :
    lookupA nullIdState.trackOutsideSince 2 = some 50 ∧
    (processDetectionForAlert nullIdState (some nullIdDogFrame) 1000).1.lastSeenAnywhereTime
      = some 1000 := by
  constructor
  · exact (null_id_no_outside_timer nullIdState nullIdEmptyFrame 1000).1 2
      (by simp [nullIdEmptyFrame]) 50 (by decide)
  · exact (null_id_no_outside_timer nullIdState nullIdDogFrame 1000).2 rfl
      (by norm_num [rawPresenceDetections, nullIdDogFrame, nullIdDet])
